import Mathlib

/-!
Verification development for the telegram-sticker-downloader repository
(single source file `main.py`).  The Python source is shallowly embedded:
pure helpers become Lean functions on `String` / `List Char` / byte lists,
and the orchestrator `download_sticker_pack` becomes a pure function of an
explicit environment record that supplies the results of every external
effect (environment variable, network responses, filesystem writes,
gzip/json/PIL library calls).  Machine-level details that the claims do not
touch (progress bar, exact printed text, directory paths) are not modelled.
-/

namespace StickerDL

/-- Bytes of a binary payload, each entry a byte value. -/
abbrev Bytes := List Nat

/-! ### Python string primitives used by the source -/

/-- Embedding of the Python expression `s.split('/')` on the character list
of `s`: splitting on every slash, keeping empty pieces, so that the result
is always non-empty. -/
def splitSlash (l : List Char) : List (List Char) :=
  l.foldr
    (fun c acc =>
      match acc with
      | [] => [[c]]
      | a :: as => if c = '/' then [] :: a :: as else (c :: a) :: as)
    [[]]

/-- Python `s.split('/')` as a function on `String`. -/
def pySplitSlash (s : String) : List String :=
  (splitSlash s.data).map String.mk

/-- Characters Python allows in a URL scheme (ASCII range, as in the
CPython `urllib.parse` scheme character set). -/
def isSchemeChar (c : Char) : Bool :=
  c.isAlphanum || c = '+' || c = '-' || c = '.'

/-- Embedding of the scheme-stripping step of CPython `urlsplit`: if the
first colon is preceded by a non-empty run of scheme characters, drop the
scheme and the colon, otherwise leave the input unchanged. -/
def dropScheme (l : List Char) : List Char :=
  match l.findIdx? (fun c => c = ':') with
  | some i => if 0 < i && (l.take i).all isSchemeChar then l.drop (i + 1) else l
  | none => l

/-- Embedding of the netloc-stripping step of CPython `urlsplit`: when the
remainder starts with two slashes, the authority extends to the first of
`/`, `?` or `#`; the path begins at that delimiter. -/
def dropNetloc (l : List Char) : List Char :=
  match l with
  | '/' :: '/' :: rest => rest.dropWhile (fun c => !(c = '/' || c = '?' || c = '#'))
  | _ => l

/-- Embedding of `urllib.parse.urlparse(url).path`: strip the scheme, then
the network location, then the fragment and the query. -/
def urlparse_path (url : String) : String :=
  String.mk (((dropNetloc (dropScheme url.data)).takeWhile (fun c => c ≠ '#')).takeWhile
    (fun c => c ≠ '?'))

/-! ### `sanitize_filename` (main.py lines 13-17) -/

/-- Characters removed by the regex `[<>:"/\\|?*]` in `sanitize_filename`. -/
def badChar (c : Char) : Bool :=
  c = '<' || c = '>' || c = ':' || c = '"' || c = '/' || c = '\\' ||
  c = '|' || c = '?' || c = '*'

/-- Whitespace stripped by Python `str.strip()` (ASCII portion; the claims
are insensitive to the wider Unicode set). -/
def isSpacePy (c : Char) : Bool :=
  c = ' ' || c = '\t' || c = '\n' || c = '\r' || c = '\x0b' || c = '\x0c'

/-- Embedding of Python `s.strip()` on a character list. -/
def pyStrip (l : List Char) : List Char :=
  ((l.dropWhile isSpacePy).reverse.dropWhile isSpacePy).reverse

/-- Embedding of `sanitize_filename` from main.py: remove the characters
matched by the regex, replace newline and carriage return by a space, strip
surrounding whitespace, and keep the first 50 characters. -/
def sanitize_filename (name : String) : String :=
  String.mk
    ((pyStrip (((name.data.filter (fun c => !badChar c)).map
      (fun c => if c = '\n' || c = '\r' then ' ' else c)))).take 50)

/-! ### `extract_pack_name` (main.py lines 19-25) -/

/-- Embedding of `extract_pack_name` from main.py: parse the URL, split the
path on slashes, and when the marker segment `addstickers` occurs among the
parts return the LAST part (`path_parts[-1]` in the source); otherwise
return `none` (Python `None`). -/
def extract_pack_name (url : String) : Option String :=
  let path_parts := pySplitSlash (urlparse_path url)
  if path_parts.contains "addstickers" then some (path_parts.getLastD "") else none

/-! ### Decimal formatting, embedding the Python f-string `f"{n:03d}"` -/

/-- Decimal digit characters. -/
def digitChar : Nat → Char
  | 0 => '0' | 1 => '1' | 2 => '2' | 3 => '3' | 4 => '4'
  | 5 => '5' | 6 => '6' | 7 => '7' | 8 => '8' | _ => '9'

/-- Fuel-driven decimal digit expansion, most significant digit first.  The
fuel is structural so the definition reduces in the kernel. -/
def decCharsAux : Nat → Nat → List Char
  | 0, _ => []
  | f + 1, n =>
    if n < 10 then [digitChar n]
    else decCharsAux f (n / 10) ++ [digitChar (n % 10)]

/-- Decimal digits of a natural number, most significant first. -/
def decChars (n : Nat) : List Char :=
  decCharsAux (n + 1) n

/-- Embedding of the Python format expression with width 3 and a zero fill:
the decimal digits, left padded with zeros to length at least 3. -/
def pad3 (n : Nat) : String :=
  String.mk (List.replicate (3 - (decChars n).length) '0' ++ decChars n)

/-- Reading a digit string back to a number, with an accumulator. -/
def ofDecAux (a : Nat) (l : List Char) : Nat :=
  l.foldl (fun a c => 10 * a + (c.toNat - 48)) a

/-- Reading a digit string back to a number. -/
def ofDec (l : List Char) : Nat := ofDecAux 0 l

/-! ### Data model of the remote API, and parsed JSON values -/

/-- Parsed JSON documents, the values `json.loads` can return (numbers are
collapsed to integers; the claims never inspect numeric contents). -/
inductive J where
  | null
  | jbool (b : Bool)
  | jnum (n : Int)
  | jstr (s : String)
  | jarr (elems : List J)
  | jobj (fields : List (String × J))

/-- Python truthiness of a parsed JSON document, as tested by the source
expression testing the converted value: None, False, 0, empty string, empty
list and empty dict are falsy, everything else truthy. -/
def pyTruthy : J → Bool
  | .null => false
  | .jbool b => b
  | .jnum n => decide (n ≠ 0)
  | .jstr s => decide (s ≠ "")
  | .jarr [] => false
  | .jarr (_ :: _) => true
  | .jobj [] => false
  | .jobj (_ :: _) => true

/-- One sticker object of the metadata response: its file reference and the
optional emoji field (`sticker.get('emoji', '')` reads it). -/
structure Sticker where
  file_id : String
  emoji : Option String
deriving DecidableEq

/-- Result object of a successful `getStickerSet` response. -/
structure PackInfo where
  title : Option String
  author : Option String
  stickers : List Sticker
deriving DecidableEq

/-- Envelope of the `getStickerSet` response: the `ok` flag with, when it is
false, the optional `description`, and otherwise the result object. -/
inductive MetaResp where
  | notOk (description : Option String)
  | ok (info : PackInfo)
deriving DecidableEq

/-- Envelope of a `getFile` response for one sticker. -/
inductive GetFileResp where
  | notOk
  | ok (file_path : String)
deriving DecidableEq

/-- Environment of external effects consumed by `download_sticker_pack`.
Because the source iterates strictly sequentially, the network and
filesystem interactions of the sticker at position `i` are the environment
functions applied to `i`.  The gzip, json and PIL library calls are
modelled as abstract functions returning `none` where the Python call would
raise (the source wraps each in a try block returning None). -/
structure Env where
  token : Option String
  metaResp : MetaResp
  mkdirOk : Bool
  manifestWriteOk : Bool
  getFile : Nat → GetFileResp
  download : Nat → Nat × Bytes
  writeOk : Nat → Bool
  gzipDecompress : Bytes → Option Bytes
  jsonParse : Bytes → Option J
  jsonDumps : J → Bytes
  webpConvert : Bytes → String → Option Bytes
  fsErrorMsg : String

/-- Terminal situation of one run of `download_sticker_pack`. -/
inductive RunEnd where
  | missingToken
  | invalidFormat
  | invalidUrl
  | packNotFound (description : Option String)
  | abortedRun (msg : String)
  | completedRun
deriving DecidableEq

/-- Observable outcome of one run: the process exit code, whether the
manifest file was written, the sticker files successfully written in order,
the number of per-sticker failures reported inside the loop, and the
terminal situation. -/
structure RunOutcome where
  exitCode : Nat
  manifest : Bool
  files : List (String × Bytes)
  failures : Nat
  outcome : RunEnd
deriving DecidableEq

/-! ### Converters (main.py lines 27-48) -/

/-- Embedding of `convert_tgs_to_lottie`: gzip decompression followed by a
JSON parse; any failure of either library call yields None. -/
def convert_tgs_to_lottie (env : Env) (tgs_data : Bytes) : Option J :=
  (env.gzipDecompress tgs_data).bind env.jsonParse

/-- Embedding of `convert_webp_to_format`: the whole body is PIL library
work (decode, optional RGB flattening for JPEG, re-encode) wrapped in a try
block returning None on failure, so it is the abstract library function of
the environment. -/
def convert_webp_to_format (env : Env) (webp_data : Bytes) (format_type : String) :
    Option Bytes :=
  env.webpConvert webp_data format_type

/-! ### Helpers shared with the orchestrator -/

/-- Embedding of Python `s.upper()` (ASCII, which covers the format names). -/
def strUpper (s : String) : String := String.mk (s.data.map Char.toUpper)

/-- Embedding of Python `s.lower()` (ASCII). -/
def strLower (s : String) : String := String.mk (s.data.map Char.toLower)

/-- Embedding of Python `s.endswith(pat)`. -/
def pyEndsWith (s pat : String) : Bool := pat.data.isSuffixOf s.data

/-- Truthiness of the TOKEN check: `os.getenv` returns None or a string and
the source tests `if not TOKEN`, so a missing or empty token fails. -/
def tokenOk (env : Env) : Bool :=
  match env.token with
  | none => false
  | some t => decide (t ≠ "")

/-- The static-format validation of main.py lines 69-72. -/
def formatOk (static_format : String) : Bool :=
  (["WEBP", "PNG", "JPEG"] : List String).contains (strUpper static_format)

/-- Truthiness of the extracted pack name: the source tests
`if not pack_name`, so None and the empty string both fail. -/
def urlOk (pack_url : String) : Bool :=
  match extract_pack_name pack_url with
  | none => false
  | some s => decide (s ≠ "")

/-- Embedding of the conversion-and-extension selection for one downloaded
sticker (main.py lines 136-163): animated stickers are classified by the
`.tgs` suffix of the resolved file path; the converted value and the
re-encoded static bytes are kept only when they are Python-truthy, with a
fallback to the original bytes and extension otherwise. -/
def chooseContent (env : Env) (convert_tgs : Bool) (static_format : String)
    (file_path : String) (content : Bytes) : String × Bytes :=
  if pyEndsWith file_path ".tgs" then
    if convert_tgs then
      match convert_tgs_to_lottie env content with
      | some j =>
        if pyTruthy j then (".json", env.jsonDumps j) else (".tgs", content)
      | none => (".tgs", content)
    else (".tgs", content)
  else
    if strUpper static_format ≠ "WEBP" then
      match convert_webp_to_format env content static_format with
      | some d =>
        if d ≠ [] then ("." ++ strLower static_format, d) else (".webp", content)
      | none => (".webp", content)
    else (".webp", content)

/-- Embedding of the filename composition of main.py lines 165-167: the
1-based zero-padded position, an underscore, the sanitized emoji with the
placeholder `sticker` substituted when the emoji field is missing or empty,
and the extension chosen by the conversion. -/
def filenameFor (i : Nat) (emoji : Option String) (extension : String) : String :=
  let e := emoji.getD ""
  let emoji_str := if e = "" then "sticker" else e
  pad3 (i + 1) ++ "_" ++ sanitize_filename emoji_str ++ extension

/-- Embedding of the sticker loop of main.py lines 114-172, processing the
descriptors from position `i` on.  Returns the files written (name and
bytes, in order), the number of per-sticker failures reported, and
`some msg` when a file-write exception aborted the loop (it propagates to
the handler at line 176).  A `getFile` failure or a non-200 download status
skips the descriptor and continues. -/
def processStickers (env : Env) (convert_tgs : Bool) (static_format : String) :
    List Sticker → Nat → List (String × Bytes) × Nat × Option String
  | [], _ => ([], 0, none)
  | st :: rest, i =>
    match env.getFile i with
    | .notOk =>
      let r := processStickers env convert_tgs static_format rest (i + 1)
      (r.1, r.2.1 + 1, r.2.2)
    | .ok file_path =>
      if (env.download i).1 ≠ 200 then
        let r := processStickers env convert_tgs static_format rest (i + 1)
        (r.1, r.2.1 + 1, r.2.2)
      else
        let ec := chooseContent env convert_tgs static_format file_path (env.download i).2
        if env.writeOk i then
          let r := processStickers env convert_tgs static_format rest (i + 1)
          ((filenameFor i st.emoji ec.1, ec.2) :: r.1, r.2.1, r.2.2)
        else ([], 0, some env.fsErrorMsg)

/-- Embedding of `download_sticker_pack` (main.py lines 50-177).  The three
startup checks call `sys.exit(1)`; a non-ok metadata envelope prints the
description and returns (exit code 0); a directory-creation, manifest-write
or sticker-write exception reaches the run-level handler which prints the
message and returns (exit code 0); otherwise the loop runs to completion. -/
def download_sticker_pack (env : Env) (pack_url : String) (convert_tgs : Bool)
    (static_format : String) : RunOutcome :=
  if !tokenOk env then ⟨1, false, [], 0, .missingToken⟩
  else if !formatOk static_format then ⟨1, false, [], 0, .invalidFormat⟩
  else if !urlOk pack_url then ⟨1, false, [], 0, .invalidUrl⟩
  else
    match env.metaResp with
    | .notOk d => ⟨0, false, [], 0, .packNotFound d⟩
    | .ok info =>
      if !env.mkdirOk then ⟨0, false, [], 0, .abortedRun env.fsErrorMsg⟩
      else if !env.manifestWriteOk then ⟨0, false, [], 0, .abortedRun env.fsErrorMsg⟩
      else
        let r := processStickers env convert_tgs static_format info.stickers 0
        match r.2.2 with
        | some m => ⟨0, true, r.1, r.2.1, .abortedRun m⟩
        | none => ⟨0, true, r.1, r.2.1, .completedRun⟩

/-! ### Derived views of the loop used by the theorems -/

/-- Whether a `getFile` envelope reports success. -/
def isOkFile : GetFileResp → Bool
  | .ok _ => true
  | .notOk => false

/-- The resolved file path of sticker `i` (meaningful when `getFile i` is
the ok envelope). -/
def filePathAt (env : Env) (i : Nat) : String :=
  match env.getFile i with
  | .ok fp => fp
  | .notOk => ""

/-- Whether sticker `i` passes both network steps: an ok `getFile` envelope
and a 200 download status. -/
def fetchOk (env : Env) (i : Nat) : Bool :=
  isOkFile (env.getFile i) && ((env.download i).1 == 200)

/-- Extension chosen for sticker `i`. -/
def stickerExt (env : Env) (convert_tgs : Bool) (static_format : String) (i : Nat) :
    String :=
  (chooseContent env convert_tgs static_format (filePathAt env i) (env.download i).2).1

/-- Bytes written for sticker `i`. -/
def stickerBytes (env : Env) (convert_tgs : Bool) (static_format : String) (i : Nat) :
    Bytes :=
  (chooseContent env convert_tgs static_format (filePathAt env i) (env.download i).2).2

/-- The files the loop writes starting at position `i` when every attempted
write succeeds: one file per descriptor that passes both network steps. -/
def buildFiles (env : Env) (convert_tgs : Bool) (static_format : String) :
    List Sticker → Nat → List (String × Bytes)
  | [], _ => []
  | st :: rest, i =>
    if fetchOk env i then
      (filenameFor i st.emoji (stickerExt env convert_tgs static_format i),
        stickerBytes env convert_tgs static_format i) ::
          buildFiles env convert_tgs static_format rest (i + 1)
    else buildFiles env convert_tgs static_format rest (i + 1)

/-! ### Concrete packs and environments used by witnesses -/

/-- A two-sticker pack. -/
def packTwo : PackInfo := ⟨some "Ttl", none, [⟨"f1", some "a"⟩, ⟨"f2", some "b"⟩]⟩

/-- A three-sticker pack. -/
def packThree : PackInfo :=
  ⟨some "Ttl", none, [⟨"f1", some "a"⟩, ⟨"f2", some "b"⟩, ⟨"f3", some "c"⟩]⟩

/-- Environment with a token and failing library calls; fields in order:
token, metaResp, mkdirOk, manifestWriteOk, getFile, download, writeOk,
gzipDecompress, jsonParse, jsonDumps, webpConvert, fsErrorMsg. -/
def envTriv : Env :=
  ⟨some "T", .notOk none, true, true, fun _ => .notOk, fun _ => (200, []),
    fun _ => true, fun _ => none, fun _ => none, fun _ => [], fun _ _ => none, "fs"⟩

/-- Environment where every network step succeeds but the file write of the
first sticker raises a filesystem error. -/
def envWriteFail : Env :=
  ⟨some "T", .ok packTwo, true, true, fun _ => .ok "s.webp", fun _ => (200, [1]),
    fun i => decide (i ≠ 0), fun _ => none, fun _ => none, fun _ => [],
    fun _ _ => none, "disk full"⟩

/-- Environment whose metadata envelope is not ok and carries a server
description. -/
def envNotOk : Env :=
  ⟨some "T", .notOk (some "STICKERSET_INVALID"), true, true, fun _ => .notOk,
    fun _ => (200, []), fun _ => true, fun _ => none, fun _ => none, fun _ => [],
    fun _ _ => none, "fs"⟩

/-- Environment for a three-sticker pack where the download of the second
sticker returns the status 404 and everything else succeeds. -/
def envMidFail : Env :=
  ⟨some "T", .ok packThree, true, true, fun _ => .ok "s.webp",
    fun i => (if i = 1 then 404 else 200, [2]), fun _ => true, fun _ => none,
    fun _ => none, fun _ => [], fun _ _ => none, "fs"⟩

/-- Environment for a two-sticker pack where every step succeeds. -/
def envAllOk : Env :=
  ⟨some "T", .ok packTwo, true, true, fun _ => .ok "s.webp", fun _ => (200, [3]),
    fun _ => true, fun _ => none, fun _ => none, fun _ => [], fun _ _ => none, "fs"⟩

/-- Environment whose animated payload gzip-decompresses and JSON-parses
successfully to the empty object, a Python-falsy document: the bytes
31, 139 decompress to 123, 125 which parse to the empty object, and nothing
else decompresses or parses. -/
def envFalsyDoc : Env :=
  ⟨some "T", .ok packTwo, true, true, fun _ => .ok "s.tgs", fun _ => (200, [31, 139]),
    fun _ => true, fun b => if b = [31, 139] then some [123, 125] else none,
    fun b => if b = [123, 125] then some (J.jobj []) else none, fun _ => [110],
    fun _ _ => none, "fs"⟩

/-! ### Facts about the decimal formatting -/

theorem digitChar_toNat {d : Nat} (h : d < 10) : (digitChar d).toNat - 48 = d := by
  interval_cases d <;> rfl

theorem digitChar_isDigit {d : Nat} (h : d < 10) : (digitChar d).isDigit = true := by
  interval_cases d <;> rfl

theorem decCharsAux_digits : ∀ f n, ∀ c ∈ decCharsAux f n, c.isDigit = true := by
  intro f
  induction f with
  | zero => intro n c hc; simp [decCharsAux] at hc
  | succ f ih =>
    intro n c hc
    by_cases h : n < 10
    · simp [decCharsAux, h] at hc
      subst hc; exact digitChar_isDigit h
    · simp [decCharsAux, h] at hc
      rcases hc with hc | hc
      · exact ih _ _ hc
      · subst hc; exact digitChar_isDigit (Nat.mod_lt _ (by norm_num))

theorem decChars_digits (n : Nat) : ∀ c ∈ decChars n, c.isDigit = true :=
  decCharsAux_digits (n + 1) n

theorem ofDecAux_append (a : Nat) (l1 l2 : List Char) :
    ofDecAux a (l1 ++ l2) = ofDecAux (ofDecAux a l1) l2 := by
  simp [ofDecAux, List.foldl_append]

theorem ofDecAux_decCharsAux : ∀ f n, n < f → ∀ a,
    ofDecAux a (decCharsAux f n) = a * 10 ^ (decCharsAux f n).length + n := by
  intro f
  induction f with
  | zero => intro n h; omega
  | succ f ih =>
    intro n h a
    by_cases h10 : n < 10
    · simp [decCharsAux, h10, ofDecAux, digitChar_toNat h10]
      ring
    · have hdiv : n / 10 < f := by
        have h1 : n / 10 < n := Nat.div_lt_self (by omega) (by norm_num)
        omega
      simp only [decCharsAux, if_neg h10]
      rw [ofDecAux_append, ih _ hdiv]
      have hm : n % 10 < 10 := Nat.mod_lt _ (by norm_num)
      simp [ofDecAux, digitChar_toNat hm, List.length_append]
      rw [Nat.pow_succ]
      have := Nat.div_add_mod n 10
      ring_nf
      omega

theorem ofDec_decChars (n : Nat) : ofDec (decChars n) = n := by
  have := ofDecAux_decCharsAux (n + 1) n (Nat.lt_succ_self n) 0
  simpa [ofDec, decChars] using this

theorem ofDecAux_zero_replicate (k : Nat) (l : List Char) :
    ofDecAux 0 (List.replicate k '0' ++ l) = ofDecAux 0 l := by
  induction k with
  | zero => simp
  | succ k ih => simpa [ofDecAux, List.replicate_succ] using ih

theorem ofDec_pad3 (n : Nat) : ofDec (pad3 n).data = n := by
  show ofDecAux 0 (List.replicate (3 - (decChars n).length) '0' ++ decChars n) = n
  rw [ofDecAux_zero_replicate]
  exact ofDec_decChars n

theorem pad3_inj {m n : Nat} (h : pad3 m = pad3 n) : m = n := by
  have : ofDec (pad3 m).data = ofDec (pad3 n).data := by rw [h]
  rwa [ofDec_pad3, ofDec_pad3] at this

theorem pad3_digits (n : Nat) : ∀ c ∈ (pad3 n).data, c.isDigit = true := by
  intro c hc
  have hc2 : c ∈ List.replicate (3 - (decChars n).length) '0' ++ decChars n := hc
  rcases List.mem_append.mp hc2 with h | h
  · rw [List.eq_of_mem_replicate h]; rfl
  · exact decChars_digits n c h

/-- Separator lemma: a digit run followed by an underscore determines the
digit run, because the underscore is not a digit. -/
theorem digit_underscore_sep :
    ∀ (a1 : List Char) (a2 : List Char) (t1 t2 : List Char),
      (∀ c ∈ a1, c.isDigit = true) → (∀ c ∈ a2, c.isDigit = true) →
      a1 ++ '_' :: t1 = a2 ++ '_' :: t2 → a1 = a2 ∧ t1 = t2 := by
  intro a1
  induction a1 with
  | nil =>
    intro a2 t1 t2 _ h2 heq
    cases a2 with
    | nil => simpa using heq
    | cons c a2 =>
      exfalso
      simp only [List.nil_append, List.cons_append, List.cons.injEq] at heq
      have hd := h2 c (by simp)
      rw [← heq.1] at hd
      exact absurd hd (by decide)
  | cons c a1 ih =>
    intro a2 t1 t2 h1 h2 heq
    cases a2 with
    | nil =>
      exfalso
      simp only [List.cons_append, List.nil_append, List.cons.injEq] at heq
      have hd := h1 c (by simp)
      rw [heq.1] at hd
      exact absurd hd (by decide)
    | cons d a2 =>
      simp only [List.cons_append, List.cons.injEq] at heq
      obtain ⟨hcd, htl⟩ := heq
      obtain ⟨ha, ht⟩ := ih a2 t1 t2 (fun x hx => h1 x (by simp [hx]))
        (fun x hx => h2 x (by simp [hx])) htl
      exact ⟨by simp [hcd, ha], ht⟩

/-! ### Facts about filenames -/

theorem strData_append (a b : String) : (a ++ b).data = a.data ++ b.data := rfl

theorem filenameFor_data (i : Nat) (e : Option String) (x : String) :
    (filenameFor i e x).data = (pad3 (i + 1)).data ++ '_' ::
      ((sanitize_filename (if e.getD "" = "" then "sticker" else e.getD "")).data ++
        x.data) := by
  simp [filenameFor, strData_append, List.append_assoc]

/-- Distinct loop positions produce distinct filenames: the underscore after
the digit run recovers the zero-padded index. -/
theorem filenameFor_inj_idx {i j : Nat} {e1 e2 : Option String} {x1 x2 : String}
    (h : filenameFor i e1 x1 = filenameFor j e2 x2) : i = j := by
  have hd := congrArg String.data h
  rw [filenameFor_data, filenameFor_data] at hd
  have hsep := digit_underscore_sep _ _ _ _ (pad3_digits (i + 1)) (pad3_digits (j + 1)) hd
  have hpad : pad3 (i + 1) = pad3 (j + 1) := congrArg String.mk hsep.1
  have := pad3_inj hpad
  omega

/-! ### Facts about the sticker loop -/

theorem processStickers_of_writeOk (env : Env) (ct : Bool) (sf : String)
    (hw : ∀ j, env.writeOk j = true) :
    ∀ l i, processStickers env ct sf l i =
      (buildFiles env ct sf l i,
        (List.range' i l.length).countP (fun j => !fetchOk env j), none) := by
  intro l
  induction l with
  | nil => intro i; simp [processStickers, buildFiles]
  | cons st rest ih =>
    intro i
    cases hgf : env.getFile i with
    | notOk =>
      have hf : fetchOk env i = false := by simp [fetchOk, hgf, isOkFile]
      simp [processStickers, hgf, buildFiles, hf, ih (i + 1), List.range'_succ,
        List.countP_cons]
    | ok fp =>
      by_cases hst : (env.download i).1 = 200
      · have hf : fetchOk env i = true := by simp [fetchOk, hgf, isOkFile, hst]
        have hfp : filePathAt env i = fp := by simp [filePathAt, hgf]
        simp [processStickers, hgf, hst, hw i, buildFiles, hf, ih (i + 1),
          List.range'_succ, List.countP_cons, stickerExt, stickerBytes, hfp]
      · have hf : fetchOk env i = false := by simp [fetchOk, hgf, isOkFile, hst]
        simp [processStickers, hgf, hst, buildFiles, hf, ih (i + 1),
          List.range'_succ, List.countP_cons]

theorem buildFiles_length (env : Env) (ct : Bool) (sf : String) :
    ∀ l i, (buildFiles env ct sf l i).length =
      (List.range' i l.length).countP (fun j => fetchOk env j) := by
  intro l
  induction l with
  | nil => intro i; simp [buildFiles]
  | cons st rest ih =>
    intro i
    by_cases hf : fetchOk env i = true
    · simp [buildFiles, hf, ih (i + 1), List.range'_succ, List.countP_cons]
    · simp at hf
      simp [buildFiles, hf, ih (i + 1), List.range'_succ, List.countP_cons]

theorem buildFiles_index_ge (env : Env) (ct : Bool) (sf : String) :
    ∀ l i q, q ∈ buildFiles env ct sf l i →
      ∃ m e x, i ≤ m ∧ q.1 = filenameFor m e x := by
  intro l
  induction l with
  | nil => intro i q hq; simp [buildFiles] at hq
  | cons st rest ih =>
    intro i q hq
    by_cases hf : fetchOk env i = true
    · simp [buildFiles, hf] at hq
      rcases hq with hq | hq
      · exact ⟨i, st.emoji, stickerExt env ct sf i, le_refl i, by rw [hq]⟩
      · obtain ⟨m, e, x, hm, hx⟩ := ih (i + 1) q hq
        exact ⟨m, e, x, by omega, hx⟩
    · simp at hf
      simp [buildFiles, hf] at hq
      obtain ⟨m, e, x, hm, hx⟩ := ih (i + 1) q hq
      exact ⟨m, e, x, by omega, hx⟩

theorem buildFiles_names_nodup (env : Env) (ct : Bool) (sf : String) :
    ∀ l i, ((buildFiles env ct sf l i).map Prod.fst).Nodup := by
  intro l
  induction l with
  | nil => intro i; simp [buildFiles]
  | cons st rest ih =>
    intro i
    by_cases hf : fetchOk env i = true
    · simp only [buildFiles, hf, if_pos, List.map_cons]
      refine List.Nodup.cons ?_ (ih (i + 1))
      intro hmem
      simp only [List.mem_map] at hmem
      obtain ⟨q, hq, hname⟩ := hmem
      obtain ⟨m, e, x, hm, hx⟩ := buildFiles_index_ge env ct sf rest (i + 1) q hq
      rw [hx] at hname
      have := filenameFor_inj_idx hname
      omega
    · simp at hf
      simp only [buildFiles, hf]
      simp only [Bool.false_eq_true, if_false]
      exact ih (i + 1)

theorem buildFiles_getD (env : Env) (ct : Bool) (sf : String)
    (hall : ∀ j, fetchOk env j = true) :
    ∀ l i k, k < l.length →
      (buildFiles env ct sf l i).getD k ("", []) =
        (filenameFor (i + k) ((l.getD k ⟨"", none⟩).emoji)
          (stickerExt env ct sf (i + k)), stickerBytes env ct sf (i + k)) := by
  intro l
  induction l with
  | nil => intro i k hk; simp at hk
  | cons st rest ih =>
    intro i k hk
    cases k with
    | zero => simp [buildFiles, hall i]
    | succ k =>
      have hk2 : k < rest.length := by simpa using hk
      have := ih (i + 1) k hk2
      simp only [buildFiles, hall i, if_pos]
      simpa [Nat.add_assoc, Nat.add_comm 1 k] using this

/-! ### Facts about the startup checks -/

theorem urlOk_iff (url : String) :
    urlOk url = true ↔
      ((pySplitSlash (urlparse_path url)).contains "addstickers" = true ∧
        (pySplitSlash (urlparse_path url)).getLastD "" ≠ "") := by
  unfold urlOk extract_pack_name
  by_cases hc : "addstickers" ∈ pySplitSlash (urlparse_path url)
  · simp [hc]
  · simp [hc]

theorem invalidUrl_of_not_urlOk (env : Env) (url : String) (ct : Bool) (sf : String)
    (htok : tokenOk env = true) (hfmt : formatOk sf = true) (hurl : urlOk url = false) :
    download_sticker_pack env url ct sf = ⟨1, false, [], 0, RunEnd.invalidUrl⟩ := by
  unfold download_sticker_pack
  simp [htok, hfmt, hurl]

theorem run_outcome_of_urlOk (env : Env) (url : String) (ct : Bool) (sf : String)
    (htok : tokenOk env = true) (hfmt : formatOk sf = true) (hurl : urlOk url = true) :
    (download_sticker_pack env url ct sf).outcome ≠ RunEnd.invalidUrl := by
  unfold download_sticker_pack
  simp only [htok, hfmt, hurl, Bool.not_true, Bool.false_eq_true, if_false]
  cases env.metaResp with
  | notOk d => simp
  | ok info =>
    by_cases hm : env.mkdirOk
    · by_cases hw : env.manifestWriteOk
      · simp only [hm, hw, Bool.not_true, Bool.false_eq_true, if_false]
        cases h2 : (processStickers env ct sf info.stickers 0).2.2 <;> simp [h2]
      · simp at hw
        simp [hm, hw]
    · simp at hm
      simp [hm]

/-! ### Claim C1 -/

/-- C1, counterexample to the claim as stated: when the add-stickers marker
is the LAST path segment the source still succeeds (returning the marker
itself instead of failing with InvalidPackUrl), and when further segments
follow the marker the source returns the last one, not the segment
immediately after the marker. -/
theorem claim1_counterexample :
    extract_pack_name "https://t.me/addstickers" = some "addstickers" ∧
    extract_pack_name "https://t.me/addstickers/Foo/Bar" = some "Bar" :=
  ⟨rfl, rfl⟩

/-- C1 as amended: `extract_pack_name` succeeds exactly when the marker
appears among the path segments, returning the LAST segment; the run fails
with InvalidPackUrl exactly when the marker is absent or the last segment
is empty; for the canonical URL it returns Foo. -/
theorem claim1_amended_thm :
    (∀ (env : Env) (url : String) (ct : Bool) (sf : String),
      tokenOk env = true → formatOk sf = true →
      ((download_sticker_pack env url ct sf).outcome = RunEnd.invalidUrl ↔
        ((pySplitSlash (urlparse_path url)).contains "addstickers" = false ∨
          (pySplitSlash (urlparse_path url)).getLastD "" = ""))) ∧
    extract_pack_name "https://t.me/addstickers/Foo" = some "Foo" := by
  constructor
  · intro env url ct sf htok hfmt
    by_cases hurl : urlOk url = true
    · have hne := run_outcome_of_urlOk env url ct sf htok hfmt hurl
      have hro := (urlOk_iff url).mp hurl
      constructor
      · intro h; exact absurd h hne
      · intro h
        exfalso
        rcases h with h | h
        · rw [hro.1] at h; cases h
        · exact hro.2 h
    · have hfalse : urlOk url = false := by simpa using hurl
      rw [invalidUrl_of_not_urlOk env url ct sf htok hfmt hfalse]
      have h2 : ¬ ((pySplitSlash (urlparse_path url)).contains "addstickers" = true ∧
          (pySplitSlash (urlparse_path url)).getLastD "" ≠ "") :=
        fun hc => hurl ((urlOk_iff url).mpr hc)
      constructor
      · intro _
        by_cases hc : (pySplitSlash (urlparse_path url)).contains "addstickers" = true
        · right
          by_contra hne
          exact h2 ⟨hc, hne⟩
        · left
          simpa using hc
      · intro _
        rfl
  · rfl

/-- C1 witness: a URL without the marker makes the run end as InvalidPackUrl. -/
theorem claim1_witness :
    (download_sticker_pack envTriv "https://t.me/x" false "WEBP").outcome =
      RunEnd.invalidUrl ∧
    extract_pack_name "https://t.me/addstickers/Foo" = some "Foo" := by
  refine ⟨(claim1_amended_thm.1 envTriv "https://t.me/x" false "WEBP" rfl rfl).mpr ?_,
    claim1_amended_thm.2⟩
  left
  decide

/-! ### Claim C2 -/

/-- C2, counterexample to the claim as stated: with two stickers whose
network steps all succeed and a filesystem error on the first write, the
run is aborted by the escaping exception: no file is written (the second
sticker is never reached), no per-sticker failure is recorded, and the end
state is the run-level handler, not a completed iteration. -/
theorem claim2_counterexample :
    download_sticker_pack envWriteFail "https://t.me/addstickers/Foo" false "WEBP" =
      ⟨0, true, [], 0, RunEnd.abortedRun "disk full"⟩ := by
  decide

/-- C2 as amended: a failure while writing one sticker propagates out of
the loop to the run-level exception handler: the run is aborted with the
filesystem message, later descriptors are not processed, and the failure is
not recorded as a per-sticker failure. -/
theorem claim2_amended_thm (env : Env) (url : String) (ct : Bool) (sf : String)
    (info : PackInfo) (st : Sticker) (rest : List Sticker) (fp : String)
    (htok : tokenOk env = true) (hfmt : formatOk sf = true) (hurl : urlOk url = true)
    (hmeta : env.metaResp = MetaResp.ok info) (hmk : env.mkdirOk = true)
    (hman : env.manifestWriteOk = true) (hstick : info.stickers = st :: rest)
    (hgf : env.getFile 0 = GetFileResp.ok fp) (hdl : (env.download 0).1 = 200)
    (hwr : env.writeOk 0 = false) :
    download_sticker_pack env url ct sf = ⟨0, true, [], 0, RunEnd.abortedRun env.fsErrorMsg⟩ := by
  unfold download_sticker_pack
  simp only [htok, hfmt, hurl, Bool.not_true, Bool.false_eq_true, if_false]
  rw [hmeta]
  simp only [hmk, hman, Bool.not_true, Bool.false_eq_true, if_false]
  rw [hstick]
  simp [processStickers, hgf, hdl, hwr]

/-- C2 witness: the amended behavior at the concrete environment. -/
theorem claim2_witness :
    (download_sticker_pack envWriteFail "https://t.me/addstickers/Foo" false "WEBP").files
      = [] ∧
    (download_sticker_pack envWriteFail "https://t.me/addstickers/Foo" false "WEBP").outcome
      = RunEnd.abortedRun "disk full" := by
  have h := claim2_amended_thm envWriteFail "https://t.me/addstickers/Foo" false "WEBP"
    packTwo ⟨"f1", some "a"⟩ [⟨"f2", some "b"⟩] "s.webp" rfl rfl (by decide) rfl rfl rfl
    rfl rfl rfl rfl
  rw [h]
  exact ⟨rfl, rfl⟩

/-! ### Claim C3 -/

/-- C3, counterexample to the claim as stated: a non-success metadata
envelope ends the run with the server description, but by a plain return,
so the process exit code is 0, not the non-zero exit the claim requires. -/
theorem claim3_counterexample :
    (download_sticker_pack envNotOk "https://t.me/addstickers/Foo" false "WEBP").exitCode
      = 0 ∧
    (download_sticker_pack envNotOk "https://t.me/addstickers/Foo" false "WEBP").outcome
      = RunEnd.packNotFound (some "STICKERSET_INVALID") := by
  decide

/-- C3 as amended: on a non-success metadata envelope the run fails fast
with PackNotFound carrying the server-supplied description, writing neither
manifest nor files, but it returns normally with process exit code 0 -
unlike InvalidPackUrl and MissingCredential, which exit with code 1. -/
theorem claim3_amended_thm (env : Env) (url : String) (ct : Bool) (sf : String)
    (d : Option String) (htok : tokenOk env = true) (hfmt : formatOk sf = true)
    (hurl : urlOk url = true) (hmeta : env.metaResp = MetaResp.notOk d) :
    download_sticker_pack env url ct sf = ⟨0, false, [], 0, RunEnd.packNotFound d⟩ := by
  unfold download_sticker_pack
  simp only [htok, hfmt, hurl, Bool.not_true, Bool.false_eq_true, if_false]
  rw [hmeta]

/-- C3 witness: the amended behavior at the concrete environment. -/
theorem claim3_witness :
    download_sticker_pack envNotOk "https://t.me/addstickers/Foo" false "WEBP" =
      ⟨0, false, [], 0, RunEnd.packNotFound (some "STICKERSET_INVALID")⟩ :=
  claim3_amended_thm envNotOk "https://t.me/addstickers/Foo" false "WEBP"
    (some "STICKERSET_INVALID") rfl rfl (by decide) rfl

/-! ### Claim C4 -/

/-- C4: per-sticker file-resolution and download failures are local.  When
the startup checks pass and every attempted write succeeds, the run always
reaches the completed end state (never the fail-fast one), the number of
files written equals the number of descriptors passing both network steps,
and the reported failure count is the number of descriptors failing one of
them. -/
theorem claim4_thm (env : Env) (url : String) (ct : Bool) (sf : String) (info : PackInfo)
    (htok : tokenOk env = true) (hfmt : formatOk sf = true) (hurl : urlOk url = true)
    (hmeta : env.metaResp = MetaResp.ok info) (hmk : env.mkdirOk = true)
    (hman : env.manifestWriteOk = true) (hw : ∀ j, env.writeOk j = true) :
    (download_sticker_pack env url ct sf).outcome = RunEnd.completedRun ∧
    (download_sticker_pack env url ct sf).files.length =
      (List.range info.stickers.length).countP (fun j => fetchOk env j) ∧
    (download_sticker_pack env url ct sf).failures =
      (List.range info.stickers.length).countP (fun j => !fetchOk env j) := by
  have hrun : download_sticker_pack env url ct sf =
      ⟨0, true, buildFiles env ct sf info.stickers 0,
        (List.range' 0 info.stickers.length).countP (fun j => !fetchOk env j),
        RunEnd.completedRun⟩ := by
    unfold download_sticker_pack
    simp only [htok, hfmt, hurl, Bool.not_true, Bool.false_eq_true, if_false]
    rw [hmeta]
    simp only [hmk, hman, Bool.not_true, Bool.false_eq_true, if_false]
    rw [processStickers_of_writeOk env ct sf hw info.stickers 0]
  rw [hrun]
  refine ⟨rfl, ?_, ?_⟩
  · show (buildFiles env ct sf info.stickers 0).length = _
    rw [buildFiles_length, ← List.range_eq_range']
  · show (List.range' 0 info.stickers.length).countP _ = _
    rw [← List.range_eq_range']

/-- C4 witness: three stickers with the download of the second returning a
404 status: the run completes with exactly 2 files and 1 reported failure. -/
theorem claim4_witness :
    (download_sticker_pack envMidFail "https://t.me/addstickers/Foo" false "WEBP").outcome
      = RunEnd.completedRun ∧
    (download_sticker_pack envMidFail "https://t.me/addstickers/Foo" false "WEBP").files.length
      = 2 ∧
    (download_sticker_pack envMidFail "https://t.me/addstickers/Foo" false "WEBP").failures
      = 1 := by
  have h := claim4_thm envMidFail "https://t.me/addstickers/Foo" false "WEBP" packThree
    rfl rfl (by decide) rfl rfl rfl (fun j => rfl)
  refine ⟨h.1, ?_, ?_⟩
  · rw [h.2.1]; decide
  · rw [h.2.2]; decide

/-! ### Claim C5 -/

/-- C5: when the metadata lists the descriptors and every fetch and write
succeeds, the run completes with the manifest plus exactly one file per
descriptor, the file at position k carrying the 1-based zero-padded index,
the sanitized emoji (or the placeholder) and the chosen extension, and all
filenames pairwise distinct. -/
theorem claim5_thm (env : Env) (url : String) (ct : Bool) (sf : String) (info : PackInfo)
    (htok : tokenOk env = true) (hfmt : formatOk sf = true) (hurl : urlOk url = true)
    (hmeta : env.metaResp = MetaResp.ok info) (hmk : env.mkdirOk = true)
    (hman : env.manifestWriteOk = true) (hok : ∀ j, isOkFile (env.getFile j) = true)
    (hdl : ∀ j, (env.download j).1 = 200) (hw : ∀ j, env.writeOk j = true) :
    (download_sticker_pack env url ct sf).outcome = RunEnd.completedRun ∧
    (download_sticker_pack env url ct sf).manifest = true ∧
    (download_sticker_pack env url ct sf).files.length = info.stickers.length ∧
    (∀ k, k < info.stickers.length →
      (download_sticker_pack env url ct sf).files.getD k ("", []) =
        (filenameFor k ((info.stickers.getD k ⟨"", none⟩).emoji)
          (stickerExt env ct sf k), stickerBytes env ct sf k)) ∧
    ((download_sticker_pack env url ct sf).files.map Prod.fst).Nodup := by
  have hall : ∀ j, fetchOk env j = true := by
    intro j
    simp [fetchOk, hok j, hdl j]
  have hrun : download_sticker_pack env url ct sf =
      ⟨0, true, buildFiles env ct sf info.stickers 0,
        (List.range' 0 info.stickers.length).countP (fun j => !fetchOk env j),
        RunEnd.completedRun⟩ := by
    unfold download_sticker_pack
    simp only [htok, hfmt, hurl, Bool.not_true, Bool.false_eq_true, if_false]
    rw [hmeta]
    simp only [hmk, hman, Bool.not_true, Bool.false_eq_true, if_false]
    rw [processStickers_of_writeOk env ct sf hw info.stickers 0]
  rw [hrun]
  refine ⟨rfl, rfl, ?_, ?_, ?_⟩
  · show (buildFiles env ct sf info.stickers 0).length = _
    rw [buildFiles_length]
    have : (List.range' 0 info.stickers.length).countP (fun j => fetchOk env j) =
        (List.range' 0 info.stickers.length).length :=
      List.countP_eq_length.mpr (fun a _ => hall a)
    rw [this]
    simp
  · intro k hk
    show (buildFiles env ct sf info.stickers 0).getD k ("", []) = _
    have := buildFiles_getD env ct sf hall info.stickers 0 k hk
    simpa using this
  · exact buildFiles_names_nodup env ct sf info.stickers 0

/-- C5 witness: a two-sticker pack where everything succeeds produces two
files with the expected names in order, plus the manifest, all distinct. -/
theorem claim5_witness :
    (download_sticker_pack envAllOk "https://t.me/addstickers/Foo" false "WEBP").outcome
      = RunEnd.completedRun ∧
    (download_sticker_pack envAllOk "https://t.me/addstickers/Foo" false "WEBP").manifest
      = true ∧
    (download_sticker_pack envAllOk "https://t.me/addstickers/Foo" false "WEBP").files.length
      = 2 ∧
    (download_sticker_pack envAllOk "https://t.me/addstickers/Foo" false "WEBP").files.getD
      0 ("", []) = ("001_a.webp", [3]) ∧
    (download_sticker_pack envAllOk "https://t.me/addstickers/Foo" false "WEBP").files.getD
      1 ("", []) = ("002_b.webp", [3]) ∧
    (((download_sticker_pack envAllOk "https://t.me/addstickers/Foo" false "WEBP").files.map
      Prod.fst).Nodup) := by
  have h := claim5_thm envAllOk "https://t.me/addstickers/Foo" false "WEBP" packTwo
    rfl rfl (by decide) rfl rfl rfl (fun j => rfl) (fun j => rfl) (fun j => rfl)
  have h0 := h.2.2.2.1 0 (by decide)
  have h1 := h.2.2.2.1 1 (by decide)
  refine ⟨h.1, h.2.1, h.2.2.1.trans (by decide), ?_, ?_, h.2.2.2.2⟩
  · rw [h0]; decide
  · rw [h1]; decide

/-! ### Claim C6 -/

/-- C6: `sanitize_filename` is total and deterministic (it is a function),
its result contains none of the nine removed characters and no newline or
carriage return, its length is at most 50, and the empty input yields the
empty output. -/
theorem claim6_thm :
    (∀ s : String,
      ((sanitize_filename s).data.all
        (fun c => !badChar c && c != '\n' && c != '\r')) = true ∧
      (sanitize_filename s).length ≤ 50) ∧
    sanitize_filename "" = "" := by
  refine ⟨fun s => ⟨?_, ?_⟩, rfl⟩
  · rw [List.all_eq_true]
    intro c hc
    have hc1 : c ∈ pyStrip ((s.data.filter (fun c => !badChar c)).map
        (fun c => if c = '\n' || c = '\r' then ' ' else c)) :=
      List.take_subset 50 _ hc
    have hc2 : c ∈ (s.data.filter (fun c => !badChar c)).map
        (fun c => if c = '\n' || c = '\r' then ' ' else c) := by
      unfold pyStrip at hc1
      rw [List.mem_reverse] at hc1
      have := (List.dropWhile_sublist isSpacePy).subset hc1
      rw [List.mem_reverse] at this
      exact (List.dropWhile_sublist isSpacePy).subset this
    rw [List.mem_map] at hc2
    obtain ⟨a, ha, hfa⟩ := hc2
    rw [List.mem_filter] at ha
    by_cases hnl : a = '\n' || a = '\r'
    · rw [if_pos hnl] at hfa
      rw [← hfa]
      decide
    · rw [if_neg hnl] at hfa
      subst hfa
      simp only [Bool.or_eq_true, decide_eq_true_eq, not_or] at hnl
      simp [ha.2, bne_iff_ne, hnl.1, hnl.2]
  · show (List.take 50 _).length ≤ 50
    rw [List.length_take]
    exact min_le_left _ _

/-! ### Claim C7 -/

/-- C7: when animated conversion is requested and the conversion fails
(gzip decompression or JSON parsing raises, i.e. the converter returns
None), the per-sticker outcome is the fallback: the original bytes with the
original animated extension; the converter itself is a total function, so
nothing escapes this boundary. -/
theorem claim7_thm (env : Env) (sf : String) (fp : String) (content : Bytes)
    (hanim : pyEndsWith fp ".tgs" = true)
    (hconv : convert_tgs_to_lottie env content = none) :
    chooseContent env true sf fp content = (".tgs", content) := by
  unfold chooseContent
  rw [if_pos hanim]
  simp [hconv]

/-- C7 witness: a payload that does not gzip-decompress falls back to the
original bytes and the tgs extension. -/
theorem claim7_witness :
    chooseContent envTriv true "WEBP" "s.tgs" [1, 2] = (".tgs", [1, 2]) :=
  claim7_thm envTriv "WEBP" "s.tgs" [1, 2] (by decide) rfl

/-! ### Claim C8 -/

/-- C8, the code bug: a payload that decompresses and parses successfully
to the empty JSON object (a valid JSON document that is Python-falsy) is
nevertheless written back as the original tgs bytes, because the source
tests the parsed document with `if lottie_data:` instead of testing for
None; the original bytes do not re-parse as JSON, so the round-trip the
claim states fails even though conversion succeeded. -/
theorem claim8_bug_thm :
    convert_tgs_to_lottie envFalsyDoc [31, 139] = some (J.jobj []) ∧
    envFalsyDoc.jsonParse [31, 139] = none ∧
    chooseContent envFalsyDoc true "WEBP" "s.tgs" [31, 139] = (".tgs", [31, 139]) :=
  ⟨rfl, rfl, rfl⟩

/-! ### Claim C9 -/

/-- C9: when no conversion is requested for the kind of the sticker, the
pipeline is the identity on the payload: an animated sticker with the
conversion flag off keeps the tgs bytes and extension, and a static sticker
with the target format equal to the source format keeps the webp bytes and
extension. -/
theorem claim9_thm (env : Env) (ct : Bool) (sf : String) (fp : String) (content : Bytes) :
    (pyEndsWith fp ".tgs" = true →
      chooseContent env false sf fp content = (".tgs", content)) ∧
    (pyEndsWith fp ".tgs" = false → strUpper sf = "WEBP" →
      chooseContent env ct sf fp content = (".webp", content)) := by
  constructor
  · intro hanim
    unfold chooseContent
    rw [if_pos hanim]
    simp
  · intro hanim hfmt
    unfold chooseContent
    rw [if_neg (by simp [hanim])]
    simp [hfmt]

/-- C9 witness: both identity cases at concrete inputs. -/
theorem claim9_witness :
    chooseContent envTriv false "WEBP" "s.tgs" [7] = (".tgs", [7]) ∧
    chooseContent envTriv false "WEBP" "s.webp" [7] = (".webp", [7]) :=
  ⟨(claim9_thm envTriv false "WEBP" "s.tgs" [7]).1 (by decide),
    (claim9_thm envTriv false "WEBP" "s.webp" [7]).2 (by decide) rfl⟩

/-! ### Claim C10 -/

/-- C10: the placeholder `sticker` is substituted only when the emoji field
is missing or empty; a non-empty emoji that sanitization empties leaves an
empty name part, so the file is the padded index, the underscore and the
extension alone. -/
theorem claim10_thm (i : Nat) (x : String) :
    (∀ e : Option String, e = none ∨ e = some "" →
      filenameFor i e x = pad3 (i + 1) ++ "_" ++ "sticker" ++ x) ∧
    (∀ s : String, s ≠ "" → sanitize_filename s = "" →
      filenameFor i (some s) x = pad3 (i + 1) ++ "_" ++ x) := by
  constructor
  · intro e he
    have hg : e.getD "" = "" := by rcases he with he | he <;> simp [he]
    unfold filenameFor
    rw [hg]
    simp [show sanitize_filename "sticker" = "sticker" from rfl]
  · intro s hs hsan
    unfold filenameFor
    simp only [Option.getD_some]
    rw [if_neg hs, hsan, String.append_empty]

/-- C10 witness: a missing emoji takes the placeholder and the all-removed
emoji leaves the empty name part. -/
theorem claim10_witness :
    filenameFor 0 none ".webp" = pad3 1 ++ "_" ++ "sticker" ++ ".webp" ∧
    filenameFor 0 (some "*") ".webp" = pad3 1 ++ "_" ++ ".webp" :=
  ⟨(claim10_thm 0 ".webp").1 none (Or.inl rfl),
    (claim10_thm 0 ".webp").2 "*" (by decide) (by decide)⟩

end StickerDL
